import Mathlib

/-!
Shallow embedding of the banking store of `ng-invoice-demo`
(`src/app/banking`): the account data model, the action catalog, the
reducer (state transition function), the service-level balance / retry
logic and the derived-view selectors.  Dates are modelled as integer
timestamps; the ambient clock (`new Date()`) is made explicit as a `now`
parameter.  Monetary amounts and rates are rationals.
-/

namespace Banking

/-- `AccountType` from `account.model.ts`. -/
inductive AccountType where
  | SAVINGS
  | CURRENT
deriving DecidableEq, Repr

/-- `AccountStatus` from `account.model.ts`. -/
inductive AccountStatus where
  | ACTIVE
  | CLOSED
  | SUSPENDED
deriving DecidableEq, Repr

/-- `Account` from `account.model.ts`.  `overdraftLimit?` is an optional
field, so it is an `Option`; `Date` fields are integer timestamps. -/
structure Account where
  id : Int
  accountNumber : String
  accountType : AccountType
  accountHolderName : String
  email : String
  phone : String
  balance : ℚ
  minBalance : ℚ
  overdraftLimit : Option ℚ
  status : AccountStatus
  createdDate : Int
  lastModifiedDate : Int
  monthlyServiceCharge : ℚ
  interestRate : ℚ
deriving DecidableEq, Repr

/-- `CreateAccountRequest` from `account.model.ts`. -/
structure CreateAccountRequest where
  accountType : AccountType
  accountHolderName : String
  email : String
  phone : String
  initialDeposit : ℚ
deriving DecidableEq, Repr

/-- `CreateAccountResponse` from `account.model.ts`. -/
structure CreateAccountResponse where
  success : Bool
  message : String
  account : Account
deriving DecidableEq, Repr

/-- `CloseAccountResponse` from `account.model.ts`. -/
structure CloseAccountResponse where
  success : Bool
  message : String
  closedDate : Int
deriving DecidableEq, Repr

/-- `BalanceCheckResponse` from `account.model.ts`. -/
structure BalanceCheckResponse where
  accountId : Int
  accountNumber : String
  currentBalance : ℚ
  availableBalance : ℚ
  isLowBalance : Bool
  minBalanceRequired : ℚ
deriving DecidableEq, Repr

/-- The business-rule constants `ACCOUNT_RULES` from `account.model.ts`. -/
structure AccountRulesSavings where
  MIN_BALANCE : ℚ
  LOW_BALANCE_THRESHOLD : ℚ
  WITHDRAWAL_LIMIT : ℚ
  INTEREST_RATE : ℚ
  INITIAL_DEPOSIT_MIN : ℚ
deriving DecidableEq, Repr

structure AccountRulesCurrent where
  MIN_BALANCE : ℚ
  LOW_BALANCE_THRESHOLD : ℚ
  OVERDRAFT_LIMIT : ℚ
  MONTHLY_SERVICE_CHARGE : ℚ
  INITIAL_DEPOSIT_MIN : ℚ
deriving DecidableEq, Repr

structure AccountRules where
  SAVINGS : AccountRulesSavings
  CURRENT : AccountRulesCurrent
deriving DecidableEq, Repr

/-- `ACCOUNT_RULES` literal from `account.model.ts`. -/
def ACCOUNT_RULES : AccountRules :=
  { SAVINGS :=
      { MIN_BALANCE := 1000
        LOW_BALANCE_THRESHOLD := 2000
        WITHDRAWAL_LIMIT := 50000
        INTEREST_RATE := 4.5
        INITIAL_DEPOSIT_MIN := 1000 }
    CURRENT :=
      { MIN_BALANCE := 5000
        LOW_BALANCE_THRESHOLD := 7000
        OVERDRAFT_LIMIT := 10000
        MONTHLY_SERVICE_CHARGE := 500
        INITIAL_DEPOSIT_MIN := 5000 } }

/-- `AccountState` from `account.state.ts`. -/
structure AccountState where
  accounts : List Account
  selectedAccount : Option Account
  selectedAccountId : Option Int
  loading : Bool
  error : Option String
  lastUpdated : Option Int
  initialized : Bool
deriving DecidableEq, Repr

/-- `initialAccountState` from `account.state.ts`. -/
def initialAccountState : AccountState :=
  { accounts := []
    selectedAccount := none
    selectedAccountId := none
    loading := false
    error := none
    lastUpdated := none
    initialized := false }

/-- The action catalog from `account.actions.ts`: one constructor per
`createAction`, carrying the declared payload. -/
inductive AccountAction where
  | loadAccounts
  | loadAccountsSuccess (accounts : List Account)
  | loadAccountsFailure (error : String)
  | loadAccount (accountId : Int)
  | loadAccountSuccess (account : Account)
  | loadAccountFailure (error : String)
  | createAccount (request : CreateAccountRequest)
  | createAccountSuccess (response : CreateAccountResponse)
  | createAccountFailure (error : String)
  | deleteAccount (accountId : Int)
  | deleteAccountSuccess (accountId : Int) (response : CloseAccountResponse)
  | deleteAccountFailure (error : String)
  | checkBalance (accountId : Int)
  | checkBalanceSuccess (response : BalanceCheckResponse)
  | checkBalanceFailure (error : String)
  | selectAccount (accountId : Option Int)
  | clearError
deriving DecidableEq, Repr

/-- The reducer `accountReducer` from `account.reducer.ts`, handler by
handler.  `now` is the value `new Date()` would produce during the
transition (the code calls it up to three times in one handler; all calls
happen in the same tick). -/
def accountReducer (now : Int) (state : AccountState) (action : AccountAction) :
    AccountState :=
  match action with
  | .loadAccounts =>
      { state with loading := true, error := none }
  | .loadAccountsSuccess accounts =>
      { state with
          accounts := accounts
          loading := false
          error := none
          initialized := true
          lastUpdated := some now }
  | .loadAccountsFailure error =>
      { state with loading := false, error := some error }
  | .loadAccount _ =>
      { state with loading := true, error := none }
  | .loadAccountSuccess account =>
      let accountExists := state.accounts.any (fun a => a.id = account.id)
      let updatedAccounts :=
        if accountExists then
          state.accounts.map (fun a => if a.id = account.id then account else a)
        else
          state.accounts ++ [account]
      { state with
          accounts := updatedAccounts
          selectedAccount := some account
          selectedAccountId := some account.id
          loading := false
          error := none
          lastUpdated := some now }
  | .loadAccountFailure error =>
      { state with loading := false, error := some error }
  | .createAccount _ =>
      { state with loading := true, error := none }
  | .createAccountSuccess response =>
      { state with
          accounts := state.accounts ++ [response.account]
          loading := false
          error := none
          lastUpdated := some now }
  | .createAccountFailure error =>
      { state with loading := false, error := some error }
  | .deleteAccount _ =>
      { state with loading := true, error := none }
  | .deleteAccountSuccess accountId _ =>
      let updatedAccounts := state.accounts.filter (fun a => a.id ≠ accountId)
      let selectedAccountCleared := state.selectedAccountId = some accountId
      { state with
          accounts := updatedAccounts
          selectedAccount :=
            if selectedAccountCleared then none else state.selectedAccount
          selectedAccountId :=
            if selectedAccountCleared then none else state.selectedAccountId
          loading := false
          error := none
          lastUpdated := some now }
  | .deleteAccountFailure error =>
      { state with loading := false, error := some error }
  | .checkBalance _ =>
      { state with loading := true, error := none }
  | .checkBalanceSuccess response =>
      let updatedAccounts :=
        state.accounts.map (fun account =>
          if account.id = response.accountId then
            { account with
                balance := response.currentBalance
                lastModifiedDate := now }
          else account)
      let updatedSelectedAccount :=
        match state.selectedAccount with
        | some sel =>
            if sel.id = response.accountId then
              some { sel with
                       balance := response.currentBalance
                       lastModifiedDate := now }
            else some sel
        | none => none
      { state with
          accounts := updatedAccounts
          selectedAccount := updatedSelectedAccount
          loading := false
          error := none
          lastUpdated := some now }
  | .checkBalanceFailure error =>
      { state with loading := false, error := some error }
  | .selectAccount accountId =>
      match accountId with
      | none =>
          { state with selectedAccount := none, selectedAccountId := none }
      | some accId =>
          let account := state.accounts.find? (fun a => a.id = accId)
          { state with
              selectedAccount := account
              selectedAccountId := some accId }
  | .clearError =>
      { state with error := none }

/-- Fold the reducer over a trace of timestamped actions. -/
def runTrace (s : AccountState) (tr : List (Int × AccountAction)) : AccountState :=
  tr.foldl (fun st p => accountReducer p.1 st p.2) s

/-!  Service layer (`account.service.ts`). -/

/-- The account object built by `AccountService.createAccount` before the
POST (`account.service.ts` lines 85-120).  The server assigns `id`; the
generated `accountNumber` and the clock are explicit parameters.  The JS
conditional spread `...(type === CURRENT && { overdraftLimit })` becomes an
`Option`. -/
def createAccountBody (now : Int) (accountNumber : String)
    (request : CreateAccountRequest) (serverId : Int) : Account :=
  let minBalance :=
    if request.accountType = AccountType.SAVINGS then
      ACCOUNT_RULES.SAVINGS.MIN_BALANCE
    else ACCOUNT_RULES.CURRENT.MIN_BALANCE
  let monthlyServiceCharge :=
    if request.accountType = AccountType.CURRENT then
      ACCOUNT_RULES.CURRENT.MONTHLY_SERVICE_CHARGE
    else 0
  let interestRate :=
    if request.accountType = AccountType.SAVINGS then
      ACCOUNT_RULES.SAVINGS.INTEREST_RATE
    else 0
  { id := serverId
    accountNumber := accountNumber
    accountType := request.accountType
    accountHolderName := request.accountHolderName
    email := request.email
    phone := request.phone
    balance := request.initialDeposit
    minBalance := minBalance
    status := AccountStatus.ACTIVE
    createdDate := now
    lastModifiedDate := now
    monthlyServiceCharge := monthlyServiceCharge
    interestRate := interestRate
    overdraftLimit :=
      if request.accountType = AccountType.CURRENT then
        some ACCOUNT_RULES.CURRENT.OVERDRAFT_LIMIT
      else none }

/-- The balance-check payload computed by `AccountService.checkBalance`
(`account.service.ts` lines 138-161) from the fetched account record.
The JS guard `accountType === CURRENT && account.overdraftLimit` is falsy
when `overdraftLimit` is `undefined` or `0`, hence the `getD 0 ≠ 0` test. -/
def checkBalanceResponse (account : Account) : BalanceCheckResponse :=
  let threshold :=
    if account.accountType = AccountType.SAVINGS then
      ACCOUNT_RULES.SAVINGS.LOW_BALANCE_THRESHOLD
    else ACCOUNT_RULES.CURRENT.LOW_BALANCE_THRESHOLD
  let availableBalance :=
    if account.accountType = AccountType.CURRENT ∧ account.overdraftLimit.getD 0 ≠ 0 then
      account.balance + account.overdraftLimit.getD 0
    else account.balance
  { accountId := account.id
    accountNumber := account.accountNumber
    currentBalance := account.balance
    availableBalance := availableBalance
    isLowBalance := account.balance < threshold
    minBalanceRequired := account.minBalance }

/-- Outcome of one underlying HTTP subscription: the value delivered, or
the error raised. -/
def Outcome (α : Type) : Type := Except String α

/-- `retry(n)` semantics from RxJS as used in `account.service.ts`:
attempt `i`; while attempts fail and retries remain, resubscribe with the
next attempt; the last error (or first success) surfaces.  `attempts k` is
the outcome of the `k`-th subscription of the source. -/
def retryRun (attempts : Nat → Outcome α) : Nat → Nat → Outcome α
  | i, 0 => attempts i
  | i, n + 1 =>
      match attempts i with
      | .ok v => .ok v
      | .error _ => retryRun attempts (i + 1) n

/-- `AccountService.getAllAccounts` (lines 38-45): the pipeline carries
`retry(1)`, so a failed first subscription is retried exactly once. -/
def getAllAccountsRun (attempts : Nat → Outcome (List Account)) :
    Outcome (List Account) :=
  retryRun attempts 0 1

/-- `AccountService.createAccount` (lines 122-131): no `retry` in the
pipeline; the single subscription's outcome surfaces. -/
def createAccountRun (attempt : Outcome CreateAccountResponse) :
    Outcome CreateAccountResponse :=
  attempt

/-- `AccountService.closeAccount` (lines 210-226): no `retry` in the
pipeline; the single subscription's outcome surfaces. -/
def closeAccountRun (attempt : Outcome CloseAccountResponse) :
    Outcome CloseAccountResponse :=
  attempt

/-!  Derived views: state helpers (`account.state.ts`) and memoized
selectors (`account.selectors.ts`). -/

/-- `getActiveAccounts` from `account.state.ts`. -/
def getActiveAccounts (state : AccountState) : List Account :=
  state.accounts.filter (fun account => account.status = AccountStatus.ACTIVE)

/-- `getLowBalanceAccounts` from `account.state.ts` (lines 129-134). -/
def getLowBalanceAccounts (state : AccountState) : List Account :=
  (getActiveAccounts state).filter (fun account =>
    let threshold : ℚ :=
      if account.accountType = AccountType.SAVINGS then 2000 else 7000
    account.balance < threshold)

/-- `selectAllAccounts` from `account.selectors.ts`, applied to the
feature state. -/
def selectAllAccounts (state : AccountState) : List Account :=
  state.accounts

/-- `selectActiveAccounts` from `account.selectors.ts`. -/
def selectActiveAccounts (state : AccountState) : List Account :=
  (selectAllAccounts state).filter (fun account =>
    account.status = AccountStatus.ACTIVE)

/-- `selectLowBalanceAccounts` from `account.selectors.ts`
(lines 222-229): projection of `selectActiveAccounts` filtered by the
inline thresholds. -/
def selectLowBalanceAccounts (state : AccountState) : List Account :=
  (selectActiveAccounts state).filter (fun account =>
    let threshold : ℚ :=
      if account.accountType = AccountType.SAVINGS then 2000 else 7000
    account.balance < threshold)

/-!  Effect coordinator (`account.effects.ts`): the flattening operator
each effect stream applies to its request stream, plus a small
operational model of the RxJS operators on an event trace. -/

/-- The higher-order flattening operators that occur in
`account.effects.ts`, plus `concatMapOp` for queue-and-wait semantics
(needed to state the spec's claim). -/
inductive RxFlatten where
  | switchMapOp
  | exhaustMapOp
  | concatMapOp
deriving DecidableEq, Repr

/-- `loadAccounts$` flattens with `exhaustMap` (`account.effects.ts` line 44). -/
def loadAccountsEffectOp : RxFlatten := .exhaustMapOp

/-- `loadAccount$` flattens with `exhaustMap` (line 72). -/
def loadAccountEffectOp : RxFlatten := .exhaustMapOp

/-- `createAccount$` flattens with `switchMap` (line 105). -/
def createAccountEffectOp : RxFlatten := .switchMapOp

/-- `deleteAccount$` flattens with `switchMap` (line 158). -/
def deleteAccountEffectOp : RxFlatten := .switchMapOp

/-- `checkBalance$` flattens with `switchMap` (line 193). -/
def checkBalanceEffectOp : RxFlatten := .switchMapOp

/-- An event on an effect stream's timeline: a new request of that kind is
dispatched, or the currently running inner call completes. -/
inductive RxEvent (α : Type) where
  | arrive (request : α)
  | finish
deriving DecidableEq, Repr

/-- Scheduler state of the operator model: the active inner call, and the
queue of pending requests (used only by `concatMapOp`). -/
structure RxState (α : Type) where
  active : Option α
  pending : List α
deriving DecidableEq, Repr

/-- One scheduler step of the operator semantics.  Returns the next state
and the request whose inner call completed (emitted), if any.
`switchMap` replaces the active call on arrival (cancelling it);
`exhaustMap` drops arrivals while a call is active; `concatMap` queues
them. -/
def rxStep (op : RxFlatten) (st : RxState α) (ev : RxEvent α) :
    RxState α × Option α :=
  match ev with
  | .arrive r =>
      match op with
      | .switchMapOp => ({ st with active := some r }, none)
      | .exhaustMapOp =>
          if st.active.isSome then (st, none)
          else ({ st with active := some r }, none)
      | .concatMapOp =>
          if st.active.isSome then ({ st with pending := st.pending ++ [r] }, none)
          else ({ st with active := some r }, none)
  | .finish =>
      match st.active with
      | none => (st, none)
      | some r =>
          match op with
          | .concatMapOp =>
              match st.pending with
              | [] => ({ active := none, pending := [] }, some r)
              | q :: qs => ({ active := some q, pending := qs }, some r)
          | _ => ({ st with active := none }, some r)

/-- Requests whose inner calls run to completion, in completion order,
when the operator `op` processes the event trace `evs`. -/
def runOpFrom (op : RxFlatten) (st : RxState α) : List (RxEvent α) → List α
  | [] => []
  | ev :: evs =>
      let (st', out) := rxStep op st ev
      match out with
      | some r => r :: runOpFrom op st' evs
      | none => runOpFrom op st' evs

/-- `runOpFrom` from the idle scheduler state. -/
def runOp (op : RxFlatten) (evs : List (RxEvent α)) : List α :=
  runOpFrom op { active := none, pending := [] } evs

/-!  Invariants and side conditions used by the claims. -/

/-- Selection invariant of `AccountState`: the selected id is null or the
id of some account in the collection. -/
def selectionInv (s : AccountState) : Prop :=
  s.selectedAccountId = none ∨ ∃ a ∈ s.accounts, some a.id = s.selectedAccountId

instance (s : AccountState) : Decidable (selectionInv s) := by
  unfold selectionInv; infer_instance

/-- Side condition under which a single action preserves `selectionInv`:
`selectAccount` must name a present account, and a `loadAccountsSuccess`
payload must still contain the selected account (if any). -/
def selectionAdmissibleB (s : AccountState) : AccountAction → Bool
  | .selectAccount (some i) => s.accounts.any (fun x => x.id = i)
  | .loadAccountsSuccess accs =>
      match s.selectedAccountId with
      | none => true
      | some i => accs.any (fun x => x.id = i)
  | _ => true

def selectionAdmissible (s : AccountState) (a : AccountAction) : Prop :=
  selectionAdmissibleB s a = true

instance (s : AccountState) (a : AccountAction) : Decidable (selectionAdmissible s a) := by
  unfold selectionAdmissible; infer_instance

/-- Every step of the trace is admissible in the state it is applied to. -/
def admissibleFrom : AccountState → List (Int × AccountAction) → Prop
  | _, [] => True
  | s, (t, a) :: tr => selectionAdmissible s a ∧ admissibleFrom (accountReducer t s a) tr

instance : ∀ (s : AccountState) (tr : List (Int × AccountAction)),
    Decidable (admissibleFrom s tr)
  | _, [] => .isTrue trivial
  | s, (t, a) :: tr =>
      have : Decidable (admissibleFrom (accountReducer t s a) tr) :=
        instDecidableAdmissibleFrom _ tr
      inferInstanceAs (Decidable (_ ∧ _))

/-- Overdraft invariant of a single account: `overdraftLimit` is defined
iff the account is a CURRENT account. -/
def overdraftInv (a : Account) : Prop :=
  a.overdraftLimit.isSome = true ↔ a.accountType = AccountType.CURRENT

instance (a : Account) : Decidable (overdraftInv a) := by
  unfold overdraftInv; infer_instance

/-- All accounts of a collection satisfy `overdraftInv`. -/
def accountsWF (l : List Account) : Prop :=
  ∀ a ∈ l, overdraftInv a

instance (l : List Account) : Decidable (accountsWF l) := by
  unfold accountsWF; infer_instance

/-- Side condition for the overdraft invariant: the accounts an action
carries into the store satisfy `overdraftInv`. -/
def payloadWFB : AccountAction → Bool
  | .loadAccountsSuccess accs => accs.all (fun a => decide (overdraftInv a))
  | .loadAccountSuccess account => decide (overdraftInv account)
  | .createAccountSuccess response => decide (overdraftInv response.account)
  | _ => true

def payloadWF (a : AccountAction) : Prop :=
  payloadWFB a = true

instance (a : AccountAction) : Decidable (payloadWF a) := by
  unfold payloadWF; infer_instance

/-- Zero out every clock-derived field of a state: `lastUpdated` and the
`lastModifiedDate` of each stored or selected account. -/
def eraseAccountTime (a : Account) : Account :=
  { a with lastModifiedDate := 0 }

def eraseTimes (s : AccountState) : AccountState :=
  { s with
      accounts := s.accounts.map eraseAccountTime
      selectedAccount := s.selectedAccount.map eraseAccountTime
      lastUpdated := none }

/-!  Concrete sample data used by counterexamples and witnesses. -/

/-- The CURRENT account of the spec's balance scenario: id 2, balance 100,
overdraft limit 10000. -/
def sampleCurrentAccount : Account :=
  { id := 2
    accountNumber := "ACC200000002"
    accountType := AccountType.CURRENT
    accountHolderName := "Current Holder"
    email := "current@example.com"
    phone := "200"
    balance := 100
    minBalance := 5000
    overdraftLimit := some 10000
    status := AccountStatus.ACTIVE
    createdDate := 0
    lastModifiedDate := 0
    monthlyServiceCharge := 500
    interestRate := 0 }

/-- The SAVINGS account of the spec's balance scenario: id 3, balance
1500. -/
def sampleSavingsAccount : Account :=
  { id := 3
    accountNumber := "ACC300000003"
    accountType := AccountType.SAVINGS
    accountHolderName := "Savings Holder"
    email := "savings@example.com"
    phone := "300"
    balance := 1500
    minBalance := 1000
    overdraftLimit := none
    status := AccountStatus.ACTIVE
    createdDate := 0
    lastModifiedDate := 0
    monthlyServiceCharge := 0
    interestRate := 4.5 }

/-- A type-valid but rule-violating payload: a SAVINGS account carrying an
overdraft limit. -/
def badSavingsAccount : Account :=
  { sampleSavingsAccount with id := 9, overdraftLimit := some 10000 }

/-- A sample creation request. -/
def sampleRequest : CreateAccountRequest :=
  { accountType := AccountType.CURRENT
    accountHolderName := "New Holder"
    email := "new@example.com"
    phone := "400"
    initialDeposit := 5000 }

/-- A sample close-account confirmation payload. -/
def sampleCloseResponse : CloseAccountResponse :=
  { success := true, message := "Account closed successfully", closedDate := 7 }

/-- A state holding the two sample accounts with account 2 selected. -/
def sampleState : AccountState :=
  { accounts := [sampleCurrentAccount, sampleSavingsAccount]
    selectedAccount := some sampleCurrentAccount
    selectedAccountId := some 2
    loading := false
    error := none
    lastUpdated := some 5
    initialized := true }

/-- The discriminating event trace for the effect operators: a second
request of the same kind arrives while the first call is in flight, then
the calls complete. -/
def supersedeTrace (r1 r2 : α) : List (RxEvent α) :=
  [.arrive r1, .arrive r2, .finish, .finish]

/-!  Theorems settling the claims. -/

/-- C1 (counterexample): the transition function is not independent of
everything outside `(state, action)`: the reducer reads the ambient clock
(`new Date()`), so the same `(state, action)` pair produces different next
states at different times — here `lastUpdated` differs. -/
theorem C1_clock_dependence_cex :
    accountReducer 0 initialAccountState (.loadAccountsSuccess []) ≠
      accountReducer 1 initialAccountState (.loadAccountsSuccess []) := by
  decide

/-- C1 (amended): the transition function is deterministic given the
clock — for fixed `(now, state, action)` the next state is uniquely
determined — and the clock is the only outside dependence: two runs of the
same `(state, action)` at different times agree on every field except the
clock-derived timestamps (`lastUpdated` and the accounts'
`lastModifiedDate`). -/
theorem C1_deterministic_given_clock :
    (∀ (now : Int) (s : AccountState) (a : AccountAction),
        accountReducer now s a = accountReducer now s a) ∧
    (∀ (t1 t2 : Int) (s : AccountState) (a : AccountAction),
        eraseTimes (accountReducer t1 s a) = eraseTimes (accountReducer t2 s a)) := by
  refine ⟨fun _ _ _ => rfl, fun t1 t2 s a => ?_⟩
  cases a <;>
    try rfl
  case checkBalanceSuccess response =>
    obtain ⟨accs, selAcc, selId, ld, err, lu, init⟩ := s
    cases selAcc with
    | none =>
        simp only [accountReducer, eraseTimes, List.map_map]
        congr 1
        apply List.map_congr_left
        intro x _
        by_cases hx : x.id = response.accountId <;>
          simp [hx, Function.comp, eraseAccountTime]
    | some sel =>
        simp only [accountReducer, eraseTimes, List.map_map]
        congr 1
        · apply List.map_congr_left
          intro x _
          by_cases hx : x.id = response.accountId <;>
            simp [hx, Function.comp, eraseAccountTime]
        · by_cases hx : sel.id = response.accountId <;>
            simp [hx, eraseAccountTime]

/-- C6: every failure action (`loadAccountsFailure`, `loadAccountFailure`,
`createAccountFailure`, `deleteAccountFailure`, `checkBalanceFailure`)
sets `loading := false` and `error` to the payload and leaves every other
field of the state unchanged. -/
theorem C6_failures_atomic (now : Int) (s : AccountState) (e : String) :
    accountReducer now s (.loadAccountsFailure e) =
        { s with loading := false, error := some e } ∧
    accountReducer now s (.loadAccountFailure e) =
        { s with loading := false, error := some e } ∧
    accountReducer now s (.createAccountFailure e) =
        { s with loading := false, error := some e } ∧
    accountReducer now s (.deleteAccountFailure e) =
        { s with loading := false, error := some e } ∧
    accountReducer now s (.checkBalanceFailure e) =
        { s with loading := false, error := some e } :=
  ⟨rfl, rfl, rfl, rfl, rfl⟩

/-- C9 (counterexample): the effect streams do not implement the claimed
pairing of semantics.  On the trace where a duplicate request arrives
while the first call is in flight, `loadAccounts$` (which uses
`exhaustMap`) disagrees with cancel-and-replace-latest (`switchMap`), and
`createAccount$` (which uses `switchMap`) disagrees with queue-and-wait
(`concatMap`). -/
theorem C9_operator_cex :
    ¬ (runOp loadAccountsEffectOp (supersedeTrace (1 : ℕ) 2) =
          runOp RxFlatten.switchMapOp (supersedeTrace (1 : ℕ) 2) ∧
       runOp createAccountEffectOp (supersedeTrace (1 : ℕ) 2) =
          runOp RxFlatten.concatMapOp (supersedeTrace (1 : ℕ) 2)) := by
  decide

/-- C9 (amended): `loadAccounts$` and `loadAccount$` flatten with
`exhaustMap` (ignore-new-while-busy: a duplicate request arriving while a
call is in flight is dropped and the first call's result is kept), while
`checkBalance$`, `createAccount$` and `deleteAccount$` flatten with
`switchMap` (cancel-and-replace-latest: the new request supersedes the
in-flight call, whose result is discarded); in particular concurrent
duplicate create/delete submissions are not each processed, unlike
queue-and-wait (`concatMap`) which completes both. -/
theorem C9_effect_operator_semantics :
    (loadAccountsEffectOp = RxFlatten.exhaustMapOp ∧
     loadAccountEffectOp = RxFlatten.exhaustMapOp ∧
     checkBalanceEffectOp = RxFlatten.switchMapOp ∧
     createAccountEffectOp = RxFlatten.switchMapOp ∧
     deleteAccountEffectOp = RxFlatten.switchMapOp) ∧
    (∀ (α : Type) (r1 r2 : α),
        runOp RxFlatten.switchMapOp (supersedeTrace r1 r2) = [r2] ∧
        runOp RxFlatten.exhaustMapOp (supersedeTrace r1 r2) = [r1] ∧
        runOp RxFlatten.concatMapOp (supersedeTrace r1 r2) = [r1, r2]) :=
  ⟨⟨rfl, rfl, rfl, rfl, rfl⟩, fun _ _ _ => ⟨rfl, rfl, rfl⟩⟩

/-- C10: the state helper `getLowBalanceAccounts` and the selector
`selectLowBalanceAccounts` agree on every state, and both return exactly
the ACTIVE accounts whose balance is below the type threshold (SAVINGS
2000, CURRENT 7000), in collection order. -/
theorem C10_low_balance_projections_agree (s : AccountState) :
    getLowBalanceAccounts s = selectLowBalanceAccounts s ∧
    getLowBalanceAccounts s =
      s.accounts.filter (fun a =>
        decide (a.status = AccountStatus.ACTIVE) &&
        decide (a.balance <
          if a.accountType = AccountType.SAVINGS then (2000 : ℚ) else 7000)) := by
  refine ⟨rfl, ?_⟩
  simp only [getLowBalanceAccounts, getActiveAccounts, List.filter_filter]
  apply List.filter_congr
  intro a _
  by_cases h1 : a.status = AccountStatus.ACTIVE <;>
    by_cases h2 : a.balance <
      (if a.accountType = AccountType.SAVINGS then (2000 : ℚ) else 7000) <;>
    simp [h1, h2]

/-- C4: `deleteAccountSuccess{accountId := X}` removes every account with
id `X` from the collection, sets `loading := false`, stamps
`lastUpdated`, and clears the selection exactly when the selected id was
`X`, leaving it unchanged otherwise. -/
theorem C4_deleteAccountSuccess_spec (now : Int) (s : AccountState) (X : Int)
    (resp : CloseAccountResponse) :
    (accountReducer now s (.deleteAccountSuccess X resp)).accounts =
        s.accounts.filter (fun a => a.id ≠ X) ∧
    (∀ a ∈ (accountReducer now s (.deleteAccountSuccess X resp)).accounts, a.id ≠ X) ∧
    (accountReducer now s (.deleteAccountSuccess X resp)).loading = false ∧
    (accountReducer now s (.deleteAccountSuccess X resp)).lastUpdated = some now ∧
    (s.selectedAccountId = some X →
        (accountReducer now s (.deleteAccountSuccess X resp)).selectedAccountId = none ∧
        (accountReducer now s (.deleteAccountSuccess X resp)).selectedAccount = none) ∧
    (s.selectedAccountId ≠ some X →
        (accountReducer now s (.deleteAccountSuccess X resp)).selectedAccountId =
            s.selectedAccountId ∧
        (accountReducer now s (.deleteAccountSuccess X resp)).selectedAccount =
            s.selectedAccount) := by
  refine ⟨rfl, ?_, rfl, rfl, ?_, ?_⟩
  · intro a ha
    have := (List.mem_filter.mp ha).2
    simpa using this
  · intro h
    simp [accountReducer, h]
  · intro h
    simp [accountReducer, h]

/-- C4 witness: deleting the selected account 2 in the sample state clears
the selection. -/
theorem C4_deleteAccountSuccess_witness :
    (accountReducer 7 sampleState (.deleteAccountSuccess 2 sampleCloseResponse)).selectedAccountId =
        none ∧
    (accountReducer 7 sampleState (.deleteAccountSuccess 2 sampleCloseResponse)).selectedAccount =
        none :=
  (C4_deleteAccountSuccess_spec 7 sampleState 2 sampleCloseResponse).2.2.2.2.1 (by decide)

/-- C5: `loadAccountSuccess{account := a}` upserts `a` by id — when some
element carries `a.id`, every such element is replaced by `a` in place
(order and length preserved: position `i` of the result is `a` where
position `i` of the input had id `a.id`, and the input element otherwise);
when none does, `a` is appended — and it selects `a`, sets
`selectedAccountId := a.id`, `loading := false`, clears the error and
stamps `lastUpdated`. -/
theorem C5_loadAccountSuccess_spec (now : Int) (s : AccountState) (acct : Account) :
    ((∃ x ∈ s.accounts, x.id = acct.id) →
        (accountReducer now s (.loadAccountSuccess acct)).accounts.length =
            s.accounts.length ∧
        ∀ i : ℕ,
          (accountReducer now s (.loadAccountSuccess acct)).accounts[i]? =
            (s.accounts[i]?).map (fun x => if x.id = acct.id then acct else x)) ∧
    ((¬ ∃ x ∈ s.accounts, x.id = acct.id) →
        (accountReducer now s (.loadAccountSuccess acct)).accounts =
            s.accounts ++ [acct]) ∧
    (accountReducer now s (.loadAccountSuccess acct)).selectedAccount = some acct ∧
    (accountReducer now s (.loadAccountSuccess acct)).selectedAccountId = some acct.id ∧
    (accountReducer now s (.loadAccountSuccess acct)).loading = false ∧
    (accountReducer now s (.loadAccountSuccess acct)).error = none ∧
    (accountReducer now s (.loadAccountSuccess acct)).lastUpdated = some now := by
  refine ⟨?_, ?_, rfl, rfl, rfl, rfl, rfl⟩
  · intro hex
    have hany : s.accounts.any (fun a => a.id = acct.id) = true := by
      simpa [List.any_eq_true] using hex
    constructor
    · simp [accountReducer, hany]
    · intro i
      simp [accountReducer, hany, List.getElem?_map]
  · intro hex
    have hany : s.accounts.any (fun a => a.id = acct.id) = false := by
      simpa [List.any_eq_false] using hex
    simp [accountReducer, hany]

/-- C5 witness: loading a fresher copy of account 2 into the sample state
replaces it in place. -/
theorem C5_loadAccountSuccess_witness :
    (accountReducer 8 sampleState
        (.loadAccountSuccess { sampleCurrentAccount with balance := 999 })).accounts.length =
        sampleState.accounts.length ∧
    ∀ i : ℕ,
      (accountReducer 8 sampleState
          (.loadAccountSuccess { sampleCurrentAccount with balance := 999 })).accounts[i]? =
        (sampleState.accounts[i]?).map
          (fun x =>
            if x.id = ({ sampleCurrentAccount with balance := 999 } : Account).id then
              { sampleCurrentAccount with balance := 999 }
            else x) :=
  (C5_loadAccountSuccess_spec 8 sampleState
      { sampleCurrentAccount with balance := 999 }).1
    ⟨sampleCurrentAccount, by simp [sampleState], rfl⟩

/-- C7 (counterexample): in the spec's scenario — CURRENT account,
balance 100, overdraft limit 10000 — the code computes `isLowBalance =
(100 < 7000) = true`, not false as the claim states: the low-balance flag
compares the raw balance, not the available balance, to the threshold. -/
theorem C7_checkBalance_cex :
    (checkBalanceResponse sampleCurrentAccount).isLowBalance = true := by
  norm_num [checkBalanceResponse, sampleCurrentAccount, ACCOUNT_RULES]
  rw [if_neg (by decide : ¬(AccountType.CURRENT = AccountType.SAVINGS))]
  norm_num

/-- C7 (amended): the balance check computes `availableBalance = balance +
overdraftLimit` for CURRENT accounts (with the limit defined) and
`= balance` for SAVINGS accounts, and `isLowBalance` compares the balance
to the fixed thresholds 2000 (SAVINGS) and 7000 (CURRENT); hence the
scenario — CURRENT, balance 100, overdraft 10000 — yields available
balance 10100 and `isLowBalance = true` (since 100 < 7000). -/
theorem C7_checkBalance_spec :
    (∀ a : Account, a.accountType = AccountType.SAVINGS →
        (checkBalanceResponse a).availableBalance = a.balance ∧
        ((checkBalanceResponse a).isLowBalance = true ↔ a.balance < 2000)) ∧
    (∀ (a : Account) (v : ℚ), a.accountType = AccountType.CURRENT →
        a.overdraftLimit = some v →
        (checkBalanceResponse a).availableBalance = a.balance + v ∧
        ((checkBalanceResponse a).isLowBalance = true ↔ a.balance < 7000)) ∧
    (checkBalanceResponse sampleCurrentAccount).availableBalance = 10100 ∧
    (checkBalanceResponse sampleCurrentAccount).isLowBalance = true := by
  refine ⟨?_, ?_, ?_, ?_⟩
  · intro a ha
    simp [checkBalanceResponse, ha, ACCOUNT_RULES]
  · intro a v ha hv
    rcases eq_or_ne v 0 with hv0 | hv0 <;>
      simp [checkBalanceResponse, ha, hv, hv0, ACCOUNT_RULES]
  · norm_num [checkBalanceResponse, sampleCurrentAccount, ACCOUNT_RULES]
  · norm_num [checkBalanceResponse, sampleCurrentAccount, ACCOUNT_RULES]
    rw [if_neg (by decide : ¬(AccountType.CURRENT = AccountType.SAVINGS))]
    norm_num

/-- C7 witness: the SAVINGS scenario account (balance 1500) exercises the
SAVINGS branch of the balance check. -/
theorem C7_checkBalance_witness :
    (checkBalanceResponse sampleSavingsAccount).availableBalance =
        sampleSavingsAccount.balance ∧
    ((checkBalanceResponse sampleSavingsAccount).isLowBalance = true ↔
        sampleSavingsAccount.balance < 2000) :=
  C7_checkBalance_spec.1 sampleSavingsAccount (by decide)

/-- C8: `getAllAccounts` retries the underlying call exactly once — a
first success surfaces, a first failure followed by a success surfaces the
success, and two failures surface the second error (no third attempt is
consulted) — while `createAccount` and `closeAccount` are never retried: a
single underlying failure surfaces its error. -/
theorem C8_retry_spec :
    (∀ (att : Nat → Outcome (List Account)) (v : List Account),
        att 0 = .ok v → getAllAccountsRun att = .ok v) ∧
    (∀ (att : Nat → Outcome (List Account)) (e : String) (v : List Account),
        att 0 = .error e → att 1 = .ok v → getAllAccountsRun att = .ok v) ∧
    (∀ (att : Nat → Outcome (List Account)) (e1 e2 : String),
        att 0 = .error e1 → att 1 = .error e2 →
        getAllAccountsRun att = .error e2) ∧
    (∀ (r : Outcome CreateAccountResponse) (e : String),
        r = .error e → createAccountRun r = .error e) ∧
    (∀ (r : Outcome CloseAccountResponse) (e : String),
        r = .error e → closeAccountRun r = .error e) := by
  refine ⟨?_, ?_, ?_, ?_, ?_⟩
  · intro att v h0
    simp [getAllAccountsRun, retryRun, h0]
  · intro att e v h0 h1
    simp [getAllAccountsRun, retryRun, h0, h1]
  · intro att e1 e2 h0 h1
    simp [getAllAccountsRun, retryRun, h0, h1]
  · intro r e h
    simpa [createAccountRun] using h
  · intro r e h
    simpa [closeAccountRun] using h

/-- A concrete attempt sequence whose first subscription fails and whose
second succeeds with the empty list. -/
def attemptsOnce : Nat → Outcome (List Account) :=
  fun k => if k = 0 then .error "transient failure" else .ok []

/-- C8 witness: a transient first failure is retried and the caller
observes the second attempt's success. -/
theorem C8_retry_witness : getAllAccountsRun attemptsOnce = .ok [] :=
  C8_retry_spec.2.1 attemptsOnce "transient failure" [] rfl rfl

/-- Single-step preservation of the selection invariant, under the side
condition `selectionAdmissible`. -/
theorem selectionInv_step (now : Int) (s : AccountState) (a : AccountAction)
    (hInv : selectionInv s) (hAdm : selectionAdmissible s a) :
    selectionInv (accountReducer now s a) := by
  obtain ⟨accs, selAcc, selId, ld, err, lu, init⟩ := s
  cases a with
  | loadAccounts => exact hInv
  | loadAccountsFailure e => exact hInv
  | loadAccount i => exact hInv
  | loadAccountFailure e => exact hInv
  | createAccount r => exact hInv
  | createAccountFailure e => exact hInv
  | deleteAccount i => exact hInv
  | deleteAccountFailure e => exact hInv
  | checkBalance i => exact hInv
  | checkBalanceFailure e => exact hInv
  | clearError => exact hInv
  | loadAccountsSuccess accounts =>
      cases selId with
      | none => exact Or.inl rfl
      | some i =>
          have h : accounts.any (fun x => decide (x.id = i)) = true := hAdm
          obtain ⟨x, hx, hxid⟩ := List.any_eq_true.mp h
          exact Or.inr ⟨x, hx, congrArg some (of_decide_eq_true hxid)⟩
  | loadAccountSuccess account =>
      refine Or.inr ?_
      cases hex : accs.any (fun x => decide (x.id = account.id)) with
      | true =>
          obtain ⟨x, hx, hxid⟩ := List.any_eq_true.mp hex
          refine ⟨account, ?_, rfl⟩
          show account ∈
            (if accs.any (fun x => decide (x.id = account.id)) = true then
              accs.map (fun x => if x.id = account.id then account else x)
            else accs ++ [account])
          rw [if_pos hex]
          exact List.mem_map.mpr ⟨x, hx, by simp [of_decide_eq_true hxid]⟩
      | false =>
          refine ⟨account, ?_, rfl⟩
          show account ∈
            (if accs.any (fun x => decide (x.id = account.id)) = true then
              accs.map (fun x => if x.id = account.id then account else x)
            else accs ++ [account])
          rw [if_neg (by simp [hex])]
          exact List.mem_append_right _ (List.mem_singleton.mpr rfl)
  | createAccountSuccess response =>
      cases hInv with
      | inl h => exact Or.inl h
      | inr h =>
          obtain ⟨x, hx, hxid⟩ := h
          exact Or.inr ⟨x, List.mem_append_left _ hx, hxid⟩
  | deleteAccountSuccess accountId response =>
      by_cases hdel : selId = some accountId
      · refine Or.inl ?_
        show (if (selId = some accountId) then none else selId) = none
        rw [if_pos hdel]
      · cases hInv with
        | inl h =>
            refine Or.inl ?_
            show (if (selId = some accountId) then none else selId) = none
            rw [if_neg hdel]
            exact h
        | inr h =>
            obtain ⟨x, hx, hxid⟩ := h
            have hx' : x ∈ accs := hx
            have hxid' : some x.id = selId := hxid
            refine Or.inr ⟨x, ?_, ?_⟩
            · show x ∈ accs.filter (fun a => decide (a.id ≠ accountId))
              apply List.mem_filter.mpr
              refine ⟨hx', ?_⟩
              rw [decide_eq_true_eq]
              intro hxa
              exact hdel (by rw [← hxid', hxa])
            · show some x.id = (if (selId = some accountId) then none else selId)
              rw [if_neg hdel]
              exact hxid'
  | checkBalanceSuccess response =>
      cases hInv with
      | inl h => exact Or.inl h
      | inr h =>
          obtain ⟨x, hx, hxid⟩ := h
          have hx' : x ∈ accs := hx
          have hxid' : some x.id = selId := hxid
          refine Or.inr ⟨(if x.id = response.accountId then
              { x with balance := response.currentBalance, lastModifiedDate := now }
            else x), List.mem_map.mpr ⟨x, hx', rfl⟩, ?_⟩
          show some ((if x.id = response.accountId then
              { x with balance := response.currentBalance, lastModifiedDate := now }
            else x).id) = selId
          by_cases hxa : x.id = response.accountId
          · rw [if_pos hxa]
            exact hxid'
          · rw [if_neg hxa]
            exact hxid'
  | selectAccount oid =>
      cases oid with
      | none => exact Or.inl rfl
      | some i =>
          have h : accs.any (fun x => decide (x.id = i)) = true := hAdm
          obtain ⟨x, hx, hxid⟩ := List.any_eq_true.mp h
          exact Or.inr ⟨x, hx, congrArg some (of_decide_eq_true hxid)⟩

/-- Trace-level preservation of the selection invariant. -/
theorem selectionInv_run :
    ∀ (tr : List (Int × AccountAction)) (s : AccountState),
      selectionInv s → admissibleFrom s tr → selectionInv (runTrace s tr)
  | [], _, h, _ => h
  | (t, a) :: tr, s, h, hadm =>
      selectionInv_run tr (accountReducer t s a)
        (selectionInv_step t s a h hadm.1) hadm.2

/-- C2 (counterexample): the selection invariant is violated in a state
reachable in one transition and observable between transitions:
`selectAccount{accountId := 5}` on the initial (empty) state sets
`selectedAccountId := 5` even though no account with id 5 exists. -/
theorem C2_selection_invariant_cex :
    ¬ selectionInv (runTrace initialAccountState [(0, .selectAccount (some 5))]) := by
  decide

/-- C2 (amended): the selection invariant holds initially and in every
state reached by a trace whose steps are admissible — i.e. whose
`selectAccount` actions name an account present in the collection and
whose `loadAccountsSuccess` payloads still contain the selected account;
without that side condition those two actions (and only those) can leave
a dangling `selectedAccountId` that persists between transitions. -/
theorem C2_selection_invariant_amended (tr : List (Int × AccountAction))
    (h : admissibleFrom initialAccountState tr) :
    selectionInv (runTrace initialAccountState tr) :=
  selectionInv_run tr initialAccountState (Or.inl rfl) h

/-- C2 witness: an admissible trace — load two accounts, then select the
present id 2 — ends in a state satisfying the invariant. -/
theorem C2_selection_invariant_witness :
    admissibleFrom initialAccountState
        [(0, .loadAccountsSuccess [sampleCurrentAccount, sampleSavingsAccount]),
         (1, .selectAccount (some 2))] ∧
    selectionInv (runTrace initialAccountState
        [(0, .loadAccountsSuccess [sampleCurrentAccount, sampleSavingsAccount]),
         (1, .selectAccount (some 2))]) :=
  ⟨by decide, C2_selection_invariant_amended _ (by decide)⟩

/-- Single-step preservation of the overdraft invariant: if every stored
account satisfies it and the action's payload accounts do too, every
account after the transition satisfies it. -/
theorem accountsWF_step (now : Int) (s : AccountState) (a : AccountAction)
    (hacc : accountsWF s.accounts) (hp : payloadWF a) :
    accountsWF (accountReducer now s a).accounts := by
  obtain ⟨accs, selAcc, selId, ld, err, lu, init⟩ := s
  have hacc' : ∀ x ∈ accs, overdraftInv x := hacc
  cases a with
  | loadAccounts => exact hacc
  | loadAccountsFailure e => exact hacc
  | loadAccount i => exact hacc
  | loadAccountFailure e => exact hacc
  | createAccount r => exact hacc
  | createAccountFailure e => exact hacc
  | deleteAccount i => exact hacc
  | deleteAccountFailure e => exact hacc
  | checkBalance i => exact hacc
  | checkBalanceFailure e => exact hacc
  | clearError => exact hacc
  | selectAccount oid =>
      cases oid with
      | none => exact hacc
      | some i => exact hacc
  | loadAccountsSuccess accounts =>
      intro x hx
      have hp' : accounts.all (fun a => decide (overdraftInv a)) = true := hp
      exact of_decide_eq_true (List.all_eq_true.mp hp' x hx)
  | loadAccountSuccess account =>
      have hwf : overdraftInv account := of_decide_eq_true hp
      intro y hy
      have hy' : y ∈
          (if accs.any (fun x => decide (x.id = account.id)) = true then
            accs.map (fun x => if x.id = account.id then account else x)
          else accs ++ [account]) := hy
      by_cases hex : accs.any (fun x => decide (x.id = account.id)) = true
      · rw [if_pos hex] at hy'
        obtain ⟨x, hx, hxy⟩ := List.mem_map.mp hy'
        by_cases hxa : x.id = account.id
        · rw [if_pos hxa] at hxy
          exact hxy ▸ hwf
        · rw [if_neg hxa] at hxy
          exact hxy ▸ hacc' x hx
      · rw [if_neg hex] at hy'
        rcases List.mem_append.mp hy' with hmem | hmem
        · exact hacc' y hmem
        · rw [List.mem_singleton.mp hmem]
          exact hwf
  | createAccountSuccess response =>
      have hwf : overdraftInv response.account := of_decide_eq_true hp
      intro y hy
      have hy' : y ∈ accs ++ [response.account] := hy
      rcases List.mem_append.mp hy' with hmem | hmem
      · exact hacc' y hmem
      · rw [List.mem_singleton.mp hmem]
        exact hwf
  | deleteAccountSuccess accountId response =>
      intro y hy
      have hy' : y ∈ accs.filter (fun a => decide (a.id ≠ accountId)) := hy
      exact hacc' y (List.mem_filter.mp hy').1
  | checkBalanceSuccess response =>
      intro y hy
      have hy' : y ∈ accs.map (fun x =>
          if x.id = response.accountId then
            { x with balance := response.currentBalance, lastModifiedDate := now }
          else x) := hy
      obtain ⟨x, hx, hxy⟩ := List.mem_map.mp hy'
      by_cases hxa : x.id = response.accountId
      · rw [if_pos hxa] at hxy
        have : overdraftInv x := hacc' x hx
        rw [← hxy]
        exact this
      · rw [if_neg hxa] at hxy
        exact hxy ▸ hacc' x hx

/-- Every step of the trace carries only well-formed account payloads. -/
def payloadsWF (tr : List (Int × AccountAction)) : Prop :=
  ∀ p ∈ tr, payloadWF p.2

instance (tr : List (Int × AccountAction)) : Decidable (payloadsWF tr) := by
  unfold payloadsWF; infer_instance

/-- Trace-level preservation of the overdraft invariant. -/
theorem accountsWF_run :
    ∀ (tr : List (Int × AccountAction)) (s : AccountState),
      accountsWF s.accounts → payloadsWF tr → accountsWF (runTrace s tr).accounts
  | [], _, h, _ => h
  | (t, a) :: tr, s, h, hp =>
      accountsWF_run tr (accountReducer t s a)
        (accountsWF_step t s a h (hp (t, a) (List.mem_cons_self _ _)))
        (fun p hmem => hp p (List.mem_cons_of_mem _ hmem))

/-- C3 (counterexample): the reducer itself does not enforce the
overdraft invariant: `loadAccountsSuccess` with a type-valid payload
holding a SAVINGS account with `overdraftLimit = 10000` reaches a state
whose collection violates it. -/
theorem C3_overdraft_invariant_cex :
    ¬ accountsWF
        (runTrace initialAccountState
          [(0, .loadAccountsSuccess [badSavingsAccount])]).accounts := by
  decide

/-- C3 (amended): every account in every state reached by a trace whose
account payloads satisfy the overdraft invariant (`overdraftLimit`
defined iff CURRENT) satisfies it as well — the reducer never breaks the
invariant on its own — and the account objects built by the service's
`createAccount` always satisfy it.  Payload well-formedness is a side
condition: the reducer accepts arbitrary type-valid payloads and stores a
violating one verbatim. -/
theorem C3_overdraft_invariant_amended :
    (∀ (now : Int) (s : AccountState) (a : AccountAction),
        accountsWF s.accounts → payloadWF a →
        accountsWF (accountReducer now s a).accounts) ∧
    (∀ (tr : List (Int × AccountAction)),
        payloadsWF tr → accountsWF (runTrace initialAccountState tr).accounts) ∧
    (∀ (now : Int) (accountNumber : String) (request : CreateAccountRequest)
        (serverId : Int),
        overdraftInv (createAccountBody now accountNumber request serverId)) := by
  refine ⟨accountsWF_step, ?_, ?_⟩
  · intro tr hp
    exact accountsWF_run tr initialAccountState (fun x hx => by cases hx) hp
  · intro now accountNumber request serverId
    cases hreq : request.accountType <;>
      simp [createAccountBody, overdraftInv, hreq]

/-- C3 witness: loading the two well-formed sample accounts keeps the
invariant, and a CURRENT-account creation request builds a well-formed
account. -/
theorem C3_overdraft_invariant_witness :
    accountsWF
        (accountReducer 0 initialAccountState
          (.loadAccountsSuccess [sampleCurrentAccount, sampleSavingsAccount])).accounts ∧
    accountsWF
        (runTrace initialAccountState
          [(0, .loadAccountsSuccess [sampleCurrentAccount, sampleSavingsAccount])]).accounts ∧
    overdraftInv (createAccountBody 3 "ACC123456789" sampleRequest 7) :=
  ⟨C3_overdraft_invariant_amended.1 0 initialAccountState _ (by decide) (by decide),
   C3_overdraft_invariant_amended.2.1 _ (by decide),
   C3_overdraft_invariant_amended.2.2 3 "ACC123456789" sampleRequest 7⟩

end Banking
